import Mathlib

/-!
Verification of the Penman evaporation engine (`penman_calculation.py`).

The engine is shallowly embedded: floating-point arithmetic of the source is
modelled over `ℝ`; operations that raise in the source (`math.sqrt` on a
negative argument, float division by zero, `datetime.strptime` on a malformed
string, an unrecognized wind-function selector) are modelled with explicit
`Except` errors, raised under exactly the conditions under which the source
operations raise, and in the source's evaluation order.
-/

namespace PenmanEv

/-- Error taxonomy of the engine (spec section 7).  In the source these are
`ValueError` from `strptime`, `ValueError` for an unknown wind function,
`ValueError` from `math.sqrt` of a negative, and `ZeroDivisionError`. -/
inductive PenmanError
  | formatError
  | invalidParameterError
  | numericDomainError
deriving DecidableEq, Repr

/-- A calendar date as used by the engine (only the month is read). -/
structure Date where
  year : ℕ
  month : ℕ
  day : ℕ
deriving DecidableEq, Repr

/-- The duck-typed `datetime_obj` argument: either a structured date value or
a text string to be parsed. -/
inductive DateInput
  | structured (d : Date)
  | text (s : String)
deriving DecidableEq, Repr

/-- Gregorian leap-year rule, as enforced by Python's `datetime.date`. -/
def isLeapYear (y : ℕ) : Bool :=
  (y % 4 == 0 && y % 100 != 0) || (y % 400 == 0)

/-- Number of days in a month, as enforced by Python's `datetime.date`. -/
def daysInMonth (y m : ℕ) : ℕ :=
  if m = 2 then (if isLeapYear y then 29 else 28)
  else if m = 4 ∨ m = 6 ∨ m = 9 ∨ m = 11 then 30
  else 31

/-- Split a character list on the dash separator. -/
def splitDash : List Char → List (List Char)
  | [] => [[]]
  | c :: cs =>
    match splitDash cs with
    | [] => [[]]
    | g :: gs => if c = '-' then [] :: g :: gs else (c :: g) :: gs

/-- Decimal value of a digit string. -/
def digitsVal (cs : List Char) : ℕ :=
  cs.foldl (fun a c => 10 * a + (c.toNat - 48)) 0

/-- All characters are ASCII decimal digits. -/
def allDigits (cs : List Char) : Bool :=
  cs.all fun c => 48 ≤ c.toNat && c.toNat ≤ 57

/-- Field matcher for `%Y`: exactly four digits. -/
def parseYear4 (cs : List Char) : Option ℕ :=
  if cs.length = 4 ∧ allDigits cs = true then some (digitsVal cs) else none

/-- Field matcher for `%m` and `%d`: one or two digits whose value lies in
the given inclusive range. -/
def parseNum12 (cs : List Char) (lo hi : ℕ) : Option ℕ :=
  if (cs.length = 1 ∨ cs.length = 2) ∧ allDigits cs = true then
    if lo ≤ digitsVal cs ∧ digitsVal cs ≤ hi then some (digitsVal cs) else none
  else none

/-- Model of `datetime.strptime(date, '%Y-%m-%d').date()`: a four-digit year,
a dash, a one-or-two-digit month 1..12, a dash, a one-or-two-digit day, with
the day validated against the month length; anything else fails. -/
def parseDateYMD (s : String) : Option Date :=
  match splitDash s.toList with
  | [ys, ms, ds] =>
    match parseYear4 ys, parseNum12 ms 1 12, parseNum12 ds 1 31 with
    | some y, some m, some d =>
      if d ≤ daysInMonth y m then some ⟨y, m, d⟩ else none
    | _, _, _ => none
  | _ => none

/-- The date-normalization step at the top of `_calculate_ra_and_N`:
`if isinstance(date, str): date = datetime.strptime(date, '%Y-%m-%d').date()`.
A structured date is used directly; text is parsed, and a parse failure is
the `FormatError` of the spec. -/
def resolveDate : DateInput → Except PenmanError Date
  | DateInput.structured d => Except.ok d
  | DateInput.text s =>
    match parseDateYMD s with
    | some d => Except.ok d
    | none => Except.error PenmanError.formatError

/-- Site configuration stored by `PenmanEvaporation.__init__`. -/
structure PenmanEvaporation where
  latitude_rad : ℝ
  elevation : ℝ
  albedo : ℝ

/-- The constructor: `math.radians(latitude_deg)` is stored, elevation and
albedo are stored unchanged. -/
noncomputable def PenmanEvaporation.mk_from_deg
    (latitude_deg elevation albedo : ℝ) : PenmanEvaporation :=
  ⟨latitude_deg * Real.pi / 180, elevation, albedo⟩

/-- `PenmanEvaporation._calculate_ra_and_N`: daylight hours
`N = 4*phi*sin(0.53*month - 1.65) + 12` and extraterrestrial radiation `Ra`
with the temperate branch for `|phi| > 23.5*pi/180` and the tropical branch
otherwise. -/
noncomputable def calculate_ra_and_N (self : PenmanEvaporation)
    (date : DateInput) : Except PenmanError (ℝ × ℝ) :=
  match resolveDate date with
  | Except.error e => Except.error e
  | Except.ok d =>
    let month : ℝ := (d.month : ℝ)
    let phi := self.latitude_rad
    let N := 4 * phi * Real.sin (0.53 * month - 1.65) + 12
    let Ra :=
      if |phi| > 23.5 * Real.pi / 180 then
        3 * N * Real.sin (0.131 * N - 0.95 * phi)
      else
        118 * N ^ 2 * Real.sin (0.131 * N - 0.2 * phi)
    Except.ok (Ra, N)

/-- The raw pre-clamp value `e_pen` of the wind-aware branch (Eq. 32):
`term1 - term2 + term3 + elevation_correction`. -/
noncomputable def e_pen_wind (self : PenmanEvaporation)
    (t_mean rh_mean rs u ra a_u b_u : ℝ) : ℝ :=
  0.051 * (1 - self.albedo) * rs * Real.sqrt (t_mean + 9.5)
    - 2.4 * (rs / ra) ^ 2
    + 0.052 * (t_mean + 20) * (1 - rh_mean / 100) * (a_u - 0.38 + b_u * u)
    + 0.00012 * self.elevation

/-- The raw pre-clamp value `e_pen` of the no-wind branch (Eq. 33). -/
noncomputable def e_pen_nowind (self : PenmanEvaporation)
    (t_mean rh_mean rs ra : ℝ) : ℝ :=
  0.047 * rs * Real.sqrt (t_mean + 9.5)
    - 2.4 * (rs / ra) ^ 2
    + 0.09 * (t_mean + 20) * (1 - rh_mean / 100)
    + 0.00012 * self.elevation

/-- Evaluation of the wind-aware branch body once coefficients are fixed:
`math.sqrt(t_mean + 9.5)` raises when its argument is negative, and
`rs / ra` raises when `ra = 0` (both `NumericDomainError` in the spec's
taxonomy); otherwise the clamped value `max(0, e_pen)` is returned. -/
noncomputable def wind_eval (self : PenmanEvaporation)
    (t_mean rh_mean rs u ra a_u b_u : ℝ) : Except PenmanError ℝ :=
  if t_mean + 9.5 < 0 then Except.error PenmanError.numericDomainError
  else if ra = 0 then Except.error PenmanError.numericDomainError
  else Except.ok (max 0 (e_pen_wind self t_mean rh_mean rs u ra a_u b_u))

/-- The wind-function selector chain of the wind-aware branch:
`penman1948 ↦ (1, 0.536)`, `penman1956 ↦ (0.5, 0.536)`,
`linacre1993 ↦ (0, 0.54)`, anything else raises
(`InvalidParameterError`). -/
noncomputable def wind_branch (self : PenmanEvaporation)
    (t_mean rh_mean rs u ra : ℝ) (wind_function : String) :
    Except PenmanError ℝ :=
  if wind_function = "penman1948" then
    wind_eval self t_mean rh_mean rs u ra 1 0.536
  else if wind_function = "penman1956" then
    wind_eval self t_mean rh_mean rs u ra 0.5 0.536
  else if wind_function = "linacre1993" then
    wind_eval self t_mean rh_mean rs u ra 0 0.54
  else Except.error PenmanError.invalidParameterError

/-- Evaluation of the no-wind branch, with the same two numeric-domain
failure modes as the wind-aware branch. -/
noncomputable def nowind_eval (self : PenmanEvaporation)
    (t_mean rh_mean rs ra : ℝ) : Except PenmanError ℝ :=
  if t_mean + 9.5 < 0 then Except.error PenmanError.numericDomainError
  else if ra = 0 then Except.error PenmanError.numericDomainError
  else Except.ok (max 0 (e_pen_nowind self t_mean rh_mean rs ra))

/-- `PenmanEvaporation.calculate_daily_evaporation`: compute `(Ra, N)` from
the date, then branch on the presence of the wind speed `u`. -/
noncomputable def calculate_daily_evaporation (self : PenmanEvaporation)
    (datetime_obj : DateInput) (t_mean rh_mean rs : ℝ) (u : Option ℝ)
    (wind_function : String) : Except PenmanError ℝ :=
  match calculate_ra_and_N self datetime_obj with
  | Except.error e => Except.error e
  | Except.ok (ra, _N) =>
    match u with
    | some uu => wind_branch self t_mean rh_mean rs uu ra wind_function
    | none => nowind_eval self t_mean rh_mean rs ra

/-- Reduction of the top-level dispatch when the radiation sub-model
succeeds and wind data is present. -/
lemma calc_eval_some (self : PenmanEvaporation) (d : DateInput)
    (t rh rs uu : ℝ) (wf : String) (ra N : ℝ)
    (hra : calculate_ra_and_N self d = Except.ok (ra, N)) :
    calculate_daily_evaporation self d t rh rs (some uu) wf =
      wind_branch self t rh rs uu ra wf := by
  unfold calculate_daily_evaporation
  rw [hra]

/-- Reduction of the top-level dispatch when the radiation sub-model
succeeds and wind data is absent. -/
lemma calc_eval_none (self : PenmanEvaporation) (d : DateInput)
    (t rh rs : ℝ) (wf : String) (ra N : ℝ)
    (hra : calculate_ra_and_N self d = Except.ok (ra, N)) :
    calculate_daily_evaporation self d t rh rs none wf =
      nowind_eval self t rh rs ra := by
  unfold calculate_daily_evaporation
  rw [hra]

/-- The selector chain on `penman1948`. -/
lemma wind_branch_1948 (self : PenmanEvaporation) (t rh rs uu ra : ℝ) :
    wind_branch self t rh rs uu ra "penman1948" =
      wind_eval self t rh rs uu ra 1 0.536 := by
  unfold wind_branch
  rw [if_pos rfl]

/-- The selector chain on `penman1956`. -/
lemma wind_branch_1956 (self : PenmanEvaporation) (t rh rs uu ra : ℝ) :
    wind_branch self t rh rs uu ra "penman1956" =
      wind_eval self t rh rs uu ra 0.5 0.536 := by
  unfold wind_branch
  rw [if_neg (by decide), if_pos rfl]

/-- The selector chain on `linacre1993`. -/
lemma wind_branch_1993 (self : PenmanEvaporation) (t rh rs uu ra : ℝ) :
    wind_branch self t rh rs uu ra "linacre1993" =
      wind_eval self t rh rs uu ra 0 0.54 := by
  unfold wind_branch
  rw [if_neg (by decide), if_neg (by decide), if_pos rfl]

/-- The selector chain on any unrecognized selector. -/
lemma wind_branch_unknown (self : PenmanEvaporation) (t rh rs uu ra : ℝ)
    (wf : String) (h1 : wf ≠ "penman1948") (h2 : wf ≠ "penman1956")
    (h3 : wf ≠ "linacre1993") :
    wind_branch self t rh rs uu ra wf =
      Except.error PenmanError.invalidParameterError := by
  unfold wind_branch
  rw [if_neg h1, if_neg h2, if_neg h3]

/-- The wind-aware body succeeds when both numeric-domain guards pass. -/
lemma wind_eval_ok (self : PenmanEvaporation) (t rh rs uu ra a b : ℝ)
    (ht : 0 ≤ t + 9.5) (h0 : ra ≠ 0) :
    wind_eval self t rh rs uu ra a b =
      Except.ok (max 0 (e_pen_wind self t rh rs uu ra a b)) := by
  unfold wind_eval
  rw [if_neg (by linarith), if_neg h0]

/-- The no-wind body succeeds when both numeric-domain guards pass. -/
lemma nowind_eval_ok (self : PenmanEvaporation) (t rh rs ra : ℝ)
    (ht : 0 ≤ t + 9.5) (h0 : ra ≠ 0) :
    nowind_eval self t rh rs ra =
      Except.ok (max 0 (e_pen_nowind self t rh rs ra)) := by
  unfold nowind_eval
  rw [if_neg (by linarith), if_neg h0]

/-- Either numeric-domain violation makes the wind-aware body fail. -/
lemma wind_eval_err (self : PenmanEvaporation) (t rh rs uu ra a b : ℝ)
    (h : t < -9.5 ∨ ra = 0) :
    wind_eval self t rh rs uu ra a b =
      Except.error PenmanError.numericDomainError := by
  unfold wind_eval
  by_cases hc : t + 9.5 < 0
  · rw [if_pos hc]
  · rw [if_neg hc]
    rcases h with h | h
    · exact absurd (by linarith) hc
    · rw [if_pos h]

/-- Either numeric-domain violation makes the no-wind body fail. -/
lemma nowind_eval_err (self : PenmanEvaporation) (t rh rs ra : ℝ)
    (h : t < -9.5 ∨ ra = 0) :
    nowind_eval self t rh rs ra =
      Except.error PenmanError.numericDomainError := by
  unfold nowind_eval
  by_cases hc : t + 9.5 < 0
  · rw [if_pos hc]
  · rw [if_neg hc]
    rcases h with h | h
    · exact absurd (by linarith) hc
    · rw [if_pos h]

/-- A concrete site used by the witnesses: the equator at 30 m with
open-water albedo. -/
noncomputable def engine0 : PenmanEvaporation :=
  PenmanEvaporation.mk_from_deg 0 30 0.08

/-- A concrete July date used by the witnesses. -/
def dateJul : DateInput := DateInput.structured ⟨2025, 7, 15⟩

lemma engine0_lat : engine0.latitude_rad = 0 := by
  norm_num [engine0, PenmanEvaporation.mk_from_deg]

lemma engine0_albedo : engine0.albedo = 0.08 := rfl

lemma engine0_elevation : engine0.elevation = 30 := rfl

/-- The extraterrestrial radiation the tropical branch produces for
`engine0` in any month (at the equator `N = 12` for every month). -/
noncomputable def ra0 : ℝ := 16992 * Real.sin 1.572

lemma ra0_pos : 0 < ra0 := by
  have h1 : (0 : ℝ) < 1.572 := by norm_num
  have h2 : (1.572 : ℝ) < Real.pi :=
    lt_trans (by norm_num) Real.pi_gt_d6
  have := Real.sin_pos_of_pos_of_lt_pi h1 h2
  unfold ra0
  positivity

lemma ra0_le : ra0 ≤ 16992 := by
  have := Real.sin_le_one (1.572 : ℝ)
  unfold ra0
  nlinarith

/-- The radiation sub-model evaluated at the witness site and date. -/
lemma engine0_ra_and_N :
    calculate_ra_and_N engine0 dateJul = Except.ok (ra0, 12) := by
  have hπ := Real.pi_pos
  simp only [calculate_ra_and_N, dateJul, resolveDate, engine0_lat]
  rw [if_neg (by rw [abs_zero]; push_neg; positivity)]
  norm_num [ra0]

/-- C1: for every engine and every wind-aware call with a recognized
wind function, `t_mean + 9.5 ≥ 0` and `Ra ≠ 0`, the result is
`max(0, 0.051*(1-albedo)*rs*sqrt(t_mean+9.5) - 2.4*(rs/Ra)^2
+ 0.052*(t_mean+20)*(1-rh_mean/100)*(a_u-0.38+b_u*u) + 0.00012*elevation)`
with `(a_u, b_u) = (1, 0.536)` for penman1948, `(0.5, 0.536)` for
penman1956, `(0, 0.54)` for linacre1993, and `Ra` taken from the
radiation sub-model for the date. -/
theorem C1_wind_formula (self : PenmanEvaporation) (d : DateInput)
    (t rh rs uu : ℝ) (wf : String) (ra N a_u b_u : ℝ)
    (hra : calculate_ra_and_N self d = Except.ok (ra, N))
    (hwf : (wf = "penman1948" ∧ a_u = 1 ∧ b_u = 0.536) ∨
           (wf = "penman1956" ∧ a_u = 0.5 ∧ b_u = 0.536) ∨
           (wf = "linacre1993" ∧ a_u = 0 ∧ b_u = 0.54))
    (ht : 0 ≤ t + 9.5) (h0 : ra ≠ 0) :
    calculate_daily_evaporation self d t rh rs (some uu) wf =
      Except.ok (max 0 (0.051 * (1 - self.albedo) * rs * Real.sqrt (t + 9.5)
        - 2.4 * (rs / ra) ^ 2
        + 0.052 * (t + 20) * (1 - rh / 100) * (a_u - 0.38 + b_u * uu)
        + 0.00012 * self.elevation)) := by
  rw [calc_eval_some self d t rh rs uu wf ra N hra]
  obtain ⟨hw, ha, hb⟩ | ⟨hw, ha, hb⟩ | ⟨hw, ha, hb⟩ := hwf <;>
    subst hw <;> subst ha <;> subst hb
  · rw [wind_branch_1948, wind_eval_ok self t rh rs uu ra 1 0.536 ht h0]
    rfl
  · rw [wind_branch_1956, wind_eval_ok self t rh rs uu ra 0.5 0.536 ht h0]
    rfl
  · rw [wind_branch_1993, wind_eval_ok self t rh rs uu ra 0 0.54 ht h0]
    rfl

/-- Witness for C1 at the concrete site `engine0`, date 2025-07-15,
`t_mean = 28`, `rh_mean = 45`, `rs = 0`, `u = 2.5`, penman1948. -/
theorem C1_wind_formula_witness :
    calculate_daily_evaporation engine0 dateJul 28 45 0 (some 2.5)
        "penman1948" =
      Except.ok (max 0 (0.051 * (1 - engine0.albedo) * 0 * Real.sqrt (28 + 9.5)
        - 2.4 * ((0 : ℝ) / ra0) ^ 2
        + 0.052 * (28 + 20) * (1 - 45 / 100) * (1 - 0.38 + 0.536 * 2.5)
        + 0.00012 * engine0.elevation)) :=
  C1_wind_formula engine0 dateJul 28 45 0 2.5 "penman1948" ra0 12 1 0.536
    engine0_ra_and_N (Or.inl ⟨rfl, rfl, rfl⟩) (by norm_num)
    (ne_of_gt ra0_pos)

/-- C2: for every stored latitude `phi` and every structured date with
calendar month `m` (1–12), the radiation sub-model returns
`N = 4*phi*sin(0.53*m - 1.65) + 12`, with
`Ra = 3*N*sin(0.131*N - 0.95*phi)` when `|phi| > 23.5*pi/180` (strict)
and `Ra = 118*N^2*sin(0.131*N - 0.2*phi)` otherwise. -/
theorem C2_radiation_formula (self : PenmanEvaporation) (y m dd : ℕ)
    (hm : 1 ≤ m ∧ m ≤ 12) :
    calculate_ra_and_N self (DateInput.structured ⟨y, m, dd⟩) =
      Except.ok
        ((if |self.latitude_rad| > 23.5 * Real.pi / 180 then
            3 * (4 * self.latitude_rad * Real.sin (0.53 * (m : ℝ) - 1.65) + 12) *
              Real.sin (0.131 * (4 * self.latitude_rad *
                Real.sin (0.53 * (m : ℝ) - 1.65) + 12) - 0.95 * self.latitude_rad)
          else
            118 * (4 * self.latitude_rad * Real.sin (0.53 * (m : ℝ) - 1.65) + 12) ^ 2 *
              Real.sin (0.131 * (4 * self.latitude_rad *
                Real.sin (0.53 * (m : ℝ) - 1.65) + 12) - 0.2 * self.latitude_rad)),
         4 * self.latitude_rad * Real.sin (0.53 * (m : ℝ) - 1.65) + 12) := rfl

/-- Witness for C2 at `engine0` and the structured date 2025-07-15. -/
theorem C2_radiation_formula_witness :
    calculate_ra_and_N engine0 (DateInput.structured ⟨2025, 7, 15⟩) =
      Except.ok
        ((if |engine0.latitude_rad| > 23.5 * Real.pi / 180 then
            3 * (4 * engine0.latitude_rad * Real.sin (0.53 * ((7 : ℕ) : ℝ) - 1.65) + 12) *
              Real.sin (0.131 * (4 * engine0.latitude_rad *
                Real.sin (0.53 * ((7 : ℕ) : ℝ) - 1.65) + 12) - 0.95 * engine0.latitude_rad)
          else
            118 * (4 * engine0.latitude_rad * Real.sin (0.53 * ((7 : ℕ) : ℝ) - 1.65) + 12) ^ 2 *
              Real.sin (0.131 * (4 * engine0.latitude_rad *
                Real.sin (0.53 * ((7 : ℕ) : ℝ) - 1.65) + 12) - 0.2 * engine0.latitude_rad)),
         4 * engine0.latitude_rad * Real.sin (0.53 * ((7 : ℕ) : ℝ) - 1.65) + 12) :=
  C2_radiation_formula engine0 2025 7 15 ⟨by norm_num, by norm_num⟩

/-- C3: for every no-wind call with `t_mean + 9.5 ≥ 0` and `Ra ≠ 0`, the
result is `max(0, 0.047*rs*sqrt(t_mean+9.5) - 2.4*(rs/Ra)^2
+ 0.09*(t_mean+20)*(1-rh_mean/100) + 0.00012*elevation)`, for every value
of the wind-function argument (which is never examined in this branch, so
even an unrecognized selector raises no error). -/
theorem C3_nowind_formula (self : PenmanEvaporation) (d : DateInput)
    (t rh rs : ℝ) (wf : String) (ra N : ℝ)
    (hra : calculate_ra_and_N self d = Except.ok (ra, N))
    (ht : 0 ≤ t + 9.5) (h0 : ra ≠ 0) :
    calculate_daily_evaporation self d t rh rs none wf =
      Except.ok (max 0 (0.047 * rs * Real.sqrt (t + 9.5)
        - 2.4 * (rs / ra) ^ 2
        + 0.09 * (t + 20) * (1 - rh / 100)
        + 0.00012 * self.elevation)) := by
  rw [calc_eval_none self d t rh rs wf ra N hra,
    nowind_eval_ok self t rh rs ra ht h0]
  rfl

/-- Witness for C3 at `engine0`, date 2025-07-15, with the unrecognized
selector string `foo`, which raises no error in the no-wind branch. -/
theorem C3_nowind_formula_witness :
    calculate_daily_evaporation engine0 dateJul 28 45 0 none "foo" =
      Except.ok (max 0 (0.047 * 0 * Real.sqrt (28 + 9.5)
        - 2.4 * ((0 : ℝ) / ra0) ^ 2
        + 0.09 * (28 + 20) * (1 - 45 / 100)
        + 0.00012 * engine0.elevation)) :=
  C3_nowind_formula engine0 dateJul 28 45 0 "foo" ra0 12 engine0_ra_and_N
    (by norm_num) (ne_of_gt ra0_pos)

/-- Inversion of the wind-aware body: a returned value is the clamped raw
formula value. -/
lemma wind_eval_inv (self : PenmanEvaporation) (t rh rs uu ra a b v : ℝ)
    (h : wind_eval self t rh rs uu ra a b = Except.ok v) :
    0 ≤ v ∧ v = max 0 (e_pen_wind self t rh rs uu ra a b) := by
  unfold wind_eval at h
  by_cases h1 : t + 9.5 < 0
  · rw [if_pos h1] at h
    exact Except.noConfusion h
  rw [if_neg h1] at h
  by_cases h2 : ra = 0
  · rw [if_pos h2] at h
    exact Except.noConfusion h
  rw [if_neg h2] at h
  have hv := Except.ok.inj h
  exact ⟨hv ▸ le_max_left 0 _, hv.symm⟩

/-- Inversion of the no-wind body: a returned value is the clamped raw
formula value. -/
lemma nowind_eval_inv (self : PenmanEvaporation) (t rh rs ra v : ℝ)
    (h : nowind_eval self t rh rs ra = Except.ok v) :
    0 ≤ v ∧ v = max 0 (e_pen_nowind self t rh rs ra) := by
  unfold nowind_eval at h
  by_cases h1 : t + 9.5 < 0
  · rw [if_pos h1] at h
    exact Except.noConfusion h
  rw [if_neg h1] at h
  by_cases h2 : ra = 0
  · rw [if_pos h2] at h
    exact Except.noConfusion h
  rw [if_neg h2] at h
  have hv := Except.ok.inj h
  exact ⟨hv ▸ le_max_left 0 _, hv.symm⟩

/-- C4: whenever the engine returns a value, that value is non-negative,
and it is exactly `max(0, e_pen)` of the raw formula of the branch that
was taken (so a negative raw value yields exactly 0); in the wind-aware
branch the coefficients of that raw formula are the ones the selector
chain assigns to the wind-function argument. -/
theorem C4_clamp_invariant (self : PenmanEvaporation) (d : DateInput)
    (t rh rs : ℝ) (u : Option ℝ) (wf : String) (v : ℝ)
    (h : calculate_daily_evaporation self d t rh rs u wf = Except.ok v) :
    0 ≤ v ∧ ∃ ra N : ℝ, calculate_ra_and_N self d = Except.ok (ra, N) ∧
      ((∃ uu a_u b_u : ℝ, u = some uu ∧
          ((wf = "penman1948" ∧ a_u = 1 ∧ b_u = 0.536) ∨
           (wf = "penman1956" ∧ a_u = 0.5 ∧ b_u = 0.536) ∨
           (wf = "linacre1993" ∧ a_u = 0 ∧ b_u = 0.54)) ∧
          v = max 0 (e_pen_wind self t rh rs uu ra a_u b_u)) ∨
        (u = none ∧ v = max 0 (e_pen_nowind self t rh rs ra))) := by
  cases hra : calculate_ra_and_N self d with
  | error e =>
    have hcalc : calculate_daily_evaporation self d t rh rs u wf =
        Except.error e := by
      unfold calculate_daily_evaporation
      rw [hra]
    rw [hcalc] at h
    exact Except.noConfusion h
  | ok p =>
    obtain ⟨ra, N⟩ := p
    cases u with
    | none =>
      rw [calc_eval_none self d t rh rs wf ra N hra] at h
      obtain ⟨hv0, hv⟩ := nowind_eval_inv self t rh rs ra v h
      exact ⟨hv0, ra, N, rfl, Or.inr ⟨rfl, hv⟩⟩
    | some uu =>
      rw [calc_eval_some self d t rh rs uu wf ra N hra] at h
      by_cases hw1 : wf = "penman1948"
      · subst hw1
        rw [wind_branch_1948] at h
        obtain ⟨hv0, hv⟩ := wind_eval_inv self t rh rs uu ra 1 0.536 v h
        exact ⟨hv0, ra, N, rfl,
          Or.inl ⟨uu, 1, 0.536, rfl, Or.inl ⟨rfl, rfl, rfl⟩, hv⟩⟩
      by_cases hw2 : wf = "penman1956"
      · subst hw2
        rw [wind_branch_1956] at h
        obtain ⟨hv0, hv⟩ := wind_eval_inv self t rh rs uu ra 0.5 0.536 v h
        exact ⟨hv0, ra, N, rfl,
          Or.inl ⟨uu, 0.5, 0.536, rfl, Or.inr (Or.inl ⟨rfl, rfl, rfl⟩), hv⟩⟩
      by_cases hw3 : wf = "linacre1993"
      · subst hw3
        rw [wind_branch_1993] at h
        obtain ⟨hv0, hv⟩ := wind_eval_inv self t rh rs uu ra 0 0.54 v h
        exact ⟨hv0, ra, N, rfl,
          Or.inl ⟨uu, 0, 0.54, rfl, Or.inr (Or.inr ⟨rfl, rfl, rfl⟩), hv⟩⟩
      rw [wind_branch_unknown self t rh rs uu ra wf hw1 hw2 hw3] at h
      exact Except.noConfusion h

/-- Witness for C4 at a concrete successful wind-aware call. -/
theorem C4_clamp_invariant_witness :
    (0 : ℝ) ≤ max 0 (e_pen_wind engine0 28 45 0 2.5 ra0 1 0.536) ∧
    ∃ ra N : ℝ, calculate_ra_and_N engine0 dateJul = Except.ok (ra, N) ∧
      ((∃ uu a_u b_u : ℝ, (some (2.5 : ℝ)) = some uu ∧
          (("penman1948" = "penman1948" ∧ a_u = 1 ∧ b_u = 0.536) ∨
           ("penman1948" = "penman1956" ∧ a_u = 0.5 ∧ b_u = 0.536) ∨
           ("penman1948" = "linacre1993" ∧ a_u = 0 ∧ b_u = 0.54)) ∧
          max 0 (e_pen_wind engine0 28 45 0 2.5 ra0 1 0.536) =
            max 0 (e_pen_wind engine0 28 45 0 uu ra a_u b_u)) ∨
        ((some (2.5 : ℝ)) = none ∧
          max 0 (e_pen_wind engine0 28 45 0 2.5 ra0 1 0.536) =
            max 0 (e_pen_nowind engine0 28 45 0 ra))) :=
  C4_clamp_invariant engine0 dateJul 28 45 0 (some 2.5) "penman1948"
    (max 0 (e_pen_wind engine0 28 45 0 2.5 ra0 1 0.536))
    (by rw [calc_eval_some engine0 dateJul 28 45 0 2.5 "penman1948" ra0 12
        engine0_ra_and_N, wind_branch_1948,
      wind_eval_ok engine0 28 45 0 2.5 ra0 1 0.536 (by norm_num)
        (ne_of_gt ra0_pos)])

/-- C5: with wind data present, a recognized wind function and a resolved
date, the call fails with `NumericDomainError` when `t_mean < -9.5` or
when the computed `Ra` is 0; the square-root failure equally occurs in
the no-wind branch; no value is returned and no clamping happens. -/
theorem C5_numeric_domain_errors (self : PenmanEvaporation) (d : DateInput)
    (t rh rs uu : ℝ) (wf : String) (ra N : ℝ)
    (hra : calculate_ra_and_N self d = Except.ok (ra, N))
    (hwf : wf = "penman1948" ∨ wf = "penman1956" ∨ wf = "linacre1993")
    (hfail : t < -9.5 ∨ ra = 0) :
    calculate_daily_evaporation self d t rh rs (some uu) wf =
      Except.error PenmanError.numericDomainError ∧
    (t < -9.5 →
      calculate_daily_evaporation self d t rh rs none wf =
        Except.error PenmanError.numericDomainError) := by
  constructor
  · rw [calc_eval_some self d t rh rs uu wf ra N hra]
    rcases hwf with hw | hw | hw <;> subst hw
    · rw [wind_branch_1948]
      exact wind_eval_err self t rh rs uu ra 1 0.536 hfail
    · rw [wind_branch_1956]
      exact wind_eval_err self t rh rs uu ra 0.5 0.536 hfail
    · rw [wind_branch_1993]
      exact wind_eval_err self t rh rs uu ra 0 0.54 hfail
  · intro hcold
    rw [calc_eval_none self d t rh rs wf ra N hra]
    exact nowind_eval_err self t rh rs ra (Or.inl hcold)

/-- Witness for C5 at `t_mean = -10` (below the -9.5 square-root bound). -/
theorem C5_numeric_domain_errors_witness :
    calculate_daily_evaporation engine0 dateJul (-10) 45 22 (some 2.5)
        "penman1948" =
      Except.error PenmanError.numericDomainError ∧
    ((-10 : ℝ) < -9.5 →
      calculate_daily_evaporation engine0 dateJul (-10) 45 22 none
          "penman1948" =
        Except.error PenmanError.numericDomainError) :=
  C5_numeric_domain_errors engine0 dateJul (-10) 45 22 2.5 "penman1948"
    ra0 12 engine0_ra_and_N (Or.inl rfl) (Or.inl (by norm_num))

/-- C6: with wind data present and a selector that is none of penman1948,
penman1956, linacre1993, the call fails with `InvalidParameterError` and
produces no value (no default is substituted). -/
theorem C6_invalid_wind_function (self : PenmanEvaporation) (d : DateInput)
    (t rh rs uu : ℝ) (wf : String) (ra N : ℝ)
    (hra : calculate_ra_and_N self d = Except.ok (ra, N))
    (h1 : wf ≠ "penman1948") (h2 : wf ≠ "penman1956")
    (h3 : wf ≠ "linacre1993") :
    calculate_daily_evaporation self d t rh rs (some uu) wf =
      Except.error PenmanError.invalidParameterError := by
  rw [calc_eval_some self d t rh rs uu wf ra N hra]
  exact wind_branch_unknown self t rh rs uu ra wf h1 h2 h3

/-- Witness for C6 with the unrecognized selector `foo`. -/
theorem C6_invalid_wind_function_witness :
    calculate_daily_evaporation engine0 dateJul 28 45 22 (some 2.5) "foo" =
      Except.error PenmanError.invalidParameterError :=
  C6_invalid_wind_function engine0 dateJul 28 45 22 2.5 "foo" ra0 12
    engine0_ra_and_N (by decide) (by decide) (by decide)

/-- C7: a date supplied as text is parsed as `YYYY-MM-DD`; text that does
not match fails the whole call with `FormatError` (no default, no value);
text that does match behaves exactly like the corresponding structured
date; a structured date is used directly. -/
theorem C7_date_parsing (self : PenmanEvaporation) (s s' : String)
    (dt : Date) (t rh rs : ℝ) (u : Option ℝ) (wf : String)
    (hbad : parseDateYMD s = none) (hgood : parseDateYMD s' = some dt) :
    calculate_daily_evaporation self (DateInput.text s) t rh rs u wf =
      Except.error PenmanError.formatError ∧
    calculate_daily_evaporation self (DateInput.text s') t rh rs u wf =
      calculate_daily_evaporation self (DateInput.structured dt) t rh rs u wf ∧
    resolveDate (DateInput.structured dt) = Except.ok dt := by
  have hres : resolveDate (DateInput.text s) =
      Except.error PenmanError.formatError := by
    simp only [resolveDate, hbad]
  have hres' : resolveDate (DateInput.text s') = Except.ok dt := by
    simp only [resolveDate, hgood]
  have hraN : calculate_ra_and_N self (DateInput.text s) =
      Except.error PenmanError.formatError := by
    unfold calculate_ra_and_N
    rw [hres]
  have hraN' : calculate_ra_and_N self (DateInput.text s') =
      calculate_ra_and_N self (DateInput.structured dt) := by
    unfold calculate_ra_and_N
    rw [hres']
    rfl
  refine ⟨?_, ?_, rfl⟩
  · unfold calculate_daily_evaporation
    rw [hraN]
  · unfold calculate_daily_evaporation
    rw [hraN']

/-- Witness for C7: the malformed text `15-07-2025` fails, the well-formed
text `2025-07-15` agrees with the structured date. -/
theorem C7_date_parsing_witness :
    calculate_daily_evaporation engine0 (DateInput.text "15-07-2025")
        28 45 22 (some 2.5) "penman1948" =
      Except.error PenmanError.formatError ∧
    calculate_daily_evaporation engine0 (DateInput.text "2025-07-15")
        28 45 22 (some 2.5) "penman1948" =
      calculate_daily_evaporation engine0
        (DateInput.structured ⟨2025, 7, 15⟩) 28 45 22 (some 2.5)
        "penman1948" ∧
    resolveDate (DateInput.structured ⟨2025, 7, 15⟩) =
      Except.ok ⟨2025, 7, 15⟩ :=
  C7_date_parsing engine0 "15-07-2025" "2025-07-15" ⟨2025, 7, 15⟩
    28 45 22 (some 2.5) "penman1948" (by decide) (by decide)

/-- At the clamping counterexample input (`t = 0`, `rh = 0`,
`rs = 100000000`, `u = 0`) the raw wind-aware value is non-positive for
every coefficient pair with `a_u ≤ 1`, because the `-2.4*(rs/Ra)^2` term
dominates. -/
lemma epen_ce_nonpos (a b : ℝ) (ha : a ≤ 1) :
    e_pen_wind engine0 0 0 100000000 0 ra0 a b ≤ 0 := by
  have hs0 : 0 ≤ Real.sqrt ((0 : ℝ) + 9.5) := Real.sqrt_nonneg _
  have hs : Real.sqrt ((0 : ℝ) + 9.5) ≤ 4 := by
    have h1 : Real.sqrt ((0 : ℝ) + 9.5) ≤ Real.sqrt 16 :=
      Real.sqrt_le_sqrt (by norm_num)
    have h2 : Real.sqrt (16 : ℝ) = 4 := by
      rw [show (16 : ℝ) = 4 ^ 2 by norm_num]
      exact Real.sqrt_sq (by norm_num)
    linarith
  have hd : (5885 : ℝ) ≤ 100000000 / ra0 := by
    rw [le_div_iff₀ ra0_pos]
    nlinarith [ra0_le]
  have hd2 : (5885 : ℝ) ^ 2 ≤ (100000000 / ra0) ^ 2 :=
    pow_le_pow_left₀ (by norm_num) hd 2
  unfold e_pen_wind
  rw [engine0_albedo, engine0_elevation]
  nlinarith [hs, hd2, ha]

/-- C8 counterexample: the claim quantifies over all weather inputs, but
at `t_mean = 0`, `rh_mean = 0`, `rs = 100000000`, `u = 0` both the
penman1948 and the penman1956 raw values are negative, both outputs are
clamped to 0, and the difference of the outputs is 0 while the claimed
difference `0.052*(t_mean+20)*(1-rh_mean/100)*0.5 = 0.52` is not. -/
theorem C8_counterexample :
    calculate_daily_evaporation engine0 dateJul 0 0 100000000 (some 0)
        "penman1948" = Except.ok 0 ∧
    calculate_daily_evaporation engine0 dateJul 0 0 100000000 (some 0)
        "penman1956" = Except.ok 0 ∧
    (0 : ℝ) - 0 ≠ 0.052 * (0 + 20) * (1 - 0 / 100) * 0.5 := by
  refine ⟨?_, ?_, by norm_num⟩
  · rw [calc_eval_some engine0 dateJul 0 0 100000000 0 "penman1948" ra0 12
        engine0_ra_and_N, wind_branch_1948,
      wind_eval_ok engine0 0 0 100000000 0 ra0 1 0.536 (by norm_num)
        (ne_of_gt ra0_pos),
      max_eq_left (epen_ce_nonpos 1 0.536 (by norm_num))]
  · rw [calc_eval_some engine0 dateJul 0 0 100000000 0 "penman1956" ra0 12
        engine0_ra_and_N, wind_branch_1956,
      wind_eval_ok engine0 0 0 100000000 0 ra0 0.5 0.536 (by norm_num)
        (ne_of_gt ra0_pos),
      max_eq_left (epen_ce_nonpos 0.5 0.536 (by norm_num))]

/-- C8 (amended): for fixed engine, date and weather inputs with wind
present, whenever neither raw pre-clamp value is negative (so the final
clamp is inactive in both calls), the penman1948 output minus the
penman1956 output equals exactly `0.052*(t_mean+20)*(1-rh_mean/100)*0.5`. -/
theorem C8_wind_table_difference (self : PenmanEvaporation) (d : DateInput)
    (t rh rs uu : ℝ) (ra N : ℝ)
    (hra : calculate_ra_and_N self d = Except.ok (ra, N))
    (ht : 0 ≤ t + 9.5) (h0 : ra ≠ 0)
    (h48 : 0 ≤ e_pen_wind self t rh rs uu ra 1 0.536)
    (h56 : 0 ≤ e_pen_wind self t rh rs uu ra 0.5 0.536) :
    calculate_daily_evaporation self d t rh rs (some uu) "penman1948" =
      Except.ok (e_pen_wind self t rh rs uu ra 1 0.536) ∧
    calculate_daily_evaporation self d t rh rs (some uu) "penman1956" =
      Except.ok (e_pen_wind self t rh rs uu ra 0.5 0.536) ∧
    e_pen_wind self t rh rs uu ra 1 0.536 -
        e_pen_wind self t rh rs uu ra 0.5 0.536 =
      0.052 * (t + 20) * (1 - rh / 100) * 0.5 := by
  refine ⟨?_, ?_, ?_⟩
  · rw [calc_eval_some self d t rh rs uu "penman1948" ra N hra,
      wind_branch_1948, wind_eval_ok self t rh rs uu ra 1 0.536 ht h0,
      max_eq_right h48]
  · rw [calc_eval_some self d t rh rs uu "penman1956" ra N hra,
      wind_branch_1956, wind_eval_ok self t rh rs uu ra 0.5 0.536 ht h0,
      max_eq_right h56]
  · unfold e_pen_wind
    ring

/-- At the witness input (`rs = 0`) the raw wind-aware value is
non-negative for the two Penman coefficient pairs. -/
lemma epen_w_nonneg (a b : ℝ) (ha : 0.5 ≤ a) (hb : b = 0.536) :
    0 ≤ e_pen_wind engine0 28 45 0 2.5 ra0 a b := by
  subst hb
  unfold e_pen_wind
  rw [engine0_albedo, engine0_elevation, zero_div]
  norm_num
  nlinarith [ha]

/-- Witness for the amended C8 at `engine0`, 2025-07-15, `t_mean = 28`,
`rh_mean = 45`, `rs = 0`, `u = 2.5`. -/
theorem C8_wind_table_difference_witness :
    calculate_daily_evaporation engine0 dateJul 28 45 0 (some 2.5)
        "penman1948" =
      Except.ok (e_pen_wind engine0 28 45 0 2.5 ra0 1 0.536) ∧
    calculate_daily_evaporation engine0 dateJul 28 45 0 (some 2.5)
        "penman1956" =
      Except.ok (e_pen_wind engine0 28 45 0 2.5 ra0 0.5 0.536) ∧
    e_pen_wind engine0 28 45 0 2.5 ra0 1 0.536 -
        e_pen_wind engine0 28 45 0 2.5 ra0 0.5 0.536 =
      0.052 * (28 + 20) * (1 - 45 / 100) * 0.5 :=
  C8_wind_table_difference engine0 dateJul 28 45 0 2.5 ra0 12
    engine0_ra_and_N (by norm_num) (ne_of_gt ra0_pos)
    (epen_w_nonneg 1 0.536 (by norm_num) rfl)
    (epen_w_nonneg 0.5 0.536 (by norm_num) rfl)

/-- C9: the elevation correction is linear in elevation: on the raw
pre-clamp value of either branch, the gain of doubling the elevation
relative to elevation 0 is exactly twice the gain of the elevation
itself, for fixed latitude, albedo and weather inputs. -/
theorem C9_elevation_linearity (lat h alb t rh rs uu ra a b : ℝ) :
    e_pen_wind ⟨lat, 2 * h, alb⟩ t rh rs uu ra a b -
        e_pen_wind ⟨lat, 0, alb⟩ t rh rs uu ra a b =
      2 * (e_pen_wind ⟨lat, h, alb⟩ t rh rs uu ra a b -
        e_pen_wind ⟨lat, 0, alb⟩ t rh rs uu ra a b) ∧
    e_pen_nowind ⟨lat, 2 * h, alb⟩ t rh rs ra -
        e_pen_nowind ⟨lat, 0, alb⟩ t rh rs ra =
      2 * (e_pen_nowind ⟨lat, h, alb⟩ t rh rs ra -
        e_pen_nowind ⟨lat, 0, alb⟩ t rh rs ra) := by
  constructor
  · simp only [e_pen_wind]
    ring
  · simp only [e_pen_nowind]
    ring

/-- C10: in the no-wind branch the result is independent of albedo: two
engines sharing latitude and elevation but with different albedo values
return identical results on identical no-wind calls. -/
theorem C10_nowind_albedo_independence (lat elev alb1 alb2 : ℝ)
    (d : DateInput) (t rh rs : ℝ) (wf : String) :
    calculate_daily_evaporation ⟨lat, elev, alb1⟩ d t rh rs none wf =
      calculate_daily_evaporation ⟨lat, elev, alb2⟩ d t rh rs none wf := rfl

end PenmanEv
